import Mathlib

/-!
Verification of the sshrpg tick-driven game engine against its design
specification.  The Python sources (`game_engine.py`, `database.py`) are
shallowly embedded below: dictionaries become association lists, Python
ints become `Int` (with `Int.fdiv` for Python's floor division `//`),
`random.randint`/`random.random` outcomes become explicit parameters, and
each handler becomes a pure state transformer on an `EngineState`.
-/

namespace SSHRPG

/-! ### Association-list maps (Python `dict` semantics) -/

/-- Lookup in an association list (Python `d.get(k)` / `d[k]`). -/
def getKey {α β : Type} [DecidableEq α] : List (α × β) → α → Option β
  | [], _ => none
  | (k, v) :: rest, key => if k = key then some v else getKey rest key

/-- Insert-or-replace in an association list (Python `d[k] = v`). -/
def setKey {α β : Type} [DecidableEq α] : List (α × β) → α → β → List (α × β)
  | [], key, v => [(key, v)]
  | (k, w) :: rest, key, v =>
      if k = key then (k, v) :: rest else (k, w) :: setKey rest key v

/-- Delete a key from an association list (Python `del d[k]`). -/
def delKey {α β : Type} [DecidableEq α] : List (α × β) → α → List (α × β)
  | [], _ => []
  | (k, w) :: rest, key =>
      if k = key then delKey rest key else (k, w) :: delKey rest key

theorem getKey_setKey_self {α β : Type} [DecidableEq α]
    (l : List (α × β)) (k : α) (v : β) : getKey (setKey l k v) k = some v := by
  induction l with
  | nil => simp [setKey, getKey]
  | cons p rest ih =>
      by_cases h : p.1 = k
      · simp [setKey, getKey, h]
      · simp [setKey, getKey, h, ih]

theorem getKey_setKey_ne {α β : Type} [DecidableEq α]
    (l : List (α × β)) (k k' : α) (v : β) (hne : k ≠ k') :
    getKey (setKey l k v) k' = getKey l k' := by
  induction l with
  | nil => simp [setKey, getKey, hne]
  | cons p rest ih =>
      by_cases h : p.1 = k
      · subst h
        simp [setKey, getKey, hne]
      · simp [setKey, getKey, h, ih]

theorem getKey_delKey_self {α β : Type} [DecidableEq α]
    (l : List (α × β)) (k : α) : getKey (delKey l k) k = none := by
  induction l with
  | nil => simp [delKey, getKey]
  | cons p rest ih =>
      by_cases h : p.1 = k
      · simp [delKey, h, ih]
      · simp [delKey, getKey, h, ih]

/-! ### Actions and the per-player queue (`game_engine.py`, `Player`) -/

/-- `ActionType` enum from `game_engine.py`. -/
inductive ActionType
  | move
  | attack
  | use_item
  | cast_spell
  | rest
  | look
  | say
deriving DecidableEq, Repr

/-- The `Action` dataclass: player id, kind, optional target and
`tick_delay` (ticks of cooldown the action imposes). -/
structure Action where
  player_id : Int
  action_type : ActionType
  target : Option String
  tick_delay : Int
deriving DecidableEq, Repr

/-- Character snapshot fields used by the engine handlers. -/
structure Character where
  id : Int
  name : String
  level : Int
  experience : Int
  health : Int
  max_health : Int
  strength : Int
  constitution : Int
  current_room : Int
deriving DecidableEq, Repr

/-- Session-scoped `Player`: character snapshot, single pending-action
list and the integer action cooldown. -/
structure Player where
  user_id : Int
  character : Character
  pending_actions : List Action
  action_cooldown : Int
  is_online : Bool
deriving DecidableEq, Repr

/-- `Player.add_action`: admits the action iff `action_cooldown <= 0`;
on success appends it and sets `action_cooldown = action.tick_delay`.
Returns the updated player together with the boolean result. -/
def Player.add_action (p : Player) (action : Action) : Player × Bool :=
  if p.action_cooldown ≤ 0 then
    ({ p with pending_actions := p.pending_actions ++ [action],
              action_cooldown := action.tick_delay }, true)
  else
    (p, false)

/-- `Player.update_cooldown`: decrement the cooldown when positive. -/
def Player.update_cooldown (p : Player) : Player :=
  if p.action_cooldown > 0 then
    { p with action_cooldown := p.action_cooldown - 1 }
  else
    p

/-! ### Repository data (`database.py`, memory/SQL semantics) -/

/-- Persisted room: exits map direction names to room ids; the property
bag is modelled by its boolean entries (`safe_zone`, `temple`, ...). -/
structure Room where
  name : String
  exits : List (String × Int)
  properties : List (String × Bool)
deriving DecidableEq, Repr

/-- Monster template (`monsters` table rows). -/
structure Monster where
  name : String
  attack : Int
  defense : Int
  experience_reward : Int
deriving DecidableEq, Repr

/-- Live monster instance (`room_monsters` table rows). -/
structure RoomMonster where
  id : Int
  monster_id : Int
  room_id : Int
  health : Int
  max_health : Int
deriving DecidableEq, Repr

/-- Item row: only the fields read by `_apply_item_effect`. -/
structure Item where
  name : String
  item_type : String
  stats : List (String × Int)
deriving DecidableEq, Repr

/-- Partial character update, as passed to `update_character(id, dict)`:
only the fields actually written by the engine handlers. -/
structure CharFields where
  health : Option Int
  current_room : Option Int
  level : Option Int
  max_health : Option Int
deriving DecidableEq, Repr

/-- Apply a partial update to a stored character row
(Python `self.characters[char_id].update(updates)`). -/
def applyCharFields (c : Character) (f : CharFields) : Character :=
  { c with
      health := f.health.getD c.health,
      current_room := f.current_room.getD c.current_room,
      level := f.level.getD c.level,
      max_health := f.max_health.getD c.max_health }

/-- The repository state the engine handlers read and write. -/
structure DB where
  rooms : List (Int × Room)
  monsters : List (Int × Monster)
  room_monsters : List RoomMonster
  characters : List (Int × Character)
deriving DecidableEq, Repr

/-- `Database.get_room`. -/
def DB.get_room (db : DB) (room_id : Int) : Option Room :=
  getKey db.rooms room_id

/-- `Database.get_monster`. -/
def DB.get_monster (db : DB) (monster_id : Int) : Option Monster :=
  getKey db.monsters monster_id

/-- `Database.get_room_monsters`: all instance rows bound to the room. -/
def DB.get_room_monsters (db : DB) (room_id : Int) : List RoomMonster :=
  db.room_monsters.filter (fun m => m.room_id = room_id)

/-- `Database.update_room_monster_health`: writes the given health value
unchanged (`UPDATE room_monsters SET health = $1 WHERE id = $2`). -/
def DB.update_room_monster_health (db : DB) (instance_id : Int) (health : Int) : DB :=
  { db with room_monsters :=
      db.room_monsters.map (fun m =>
        if m.id = instance_id then { m with health := health } else m) }

/-- `Database.update_room_monster_room`: rebinds an instance to a room. -/
def DB.update_room_monster_room (db : DB) (instance_id : Int) (new_room_id : Int) : DB :=
  { db with room_monsters :=
      db.room_monsters.map (fun m =>
        if m.id = instance_id then { m with room_id := new_room_id } else m) }

/-- `Database.remove_room_monster`: deletes the instance row. -/
def DB.remove_room_monster (db : DB) (instance_id : Int) : DB :=
  { db with room_monsters := db.room_monsters.filter (fun m => ¬ m.id = instance_id) }

/-- `Database.update_character`: partial field update of the stored row. -/
def DB.update_character (db : DB) (char_id : Int) (f : CharFields) : DB :=
  match getKey db.characters char_id with
  | some c => { db with characters := setKey db.characters char_id (applyCharFields c f) }
  | none => db

/-- The direction-reversal table of `Database.link_rooms`. -/
def oppositeDirs : List (String × String) :=
  [("north", "south"), ("south", "north"),
   ("east", "west"), ("west", "east"),
   ("up", "down"), ("down", "up")]

/-- `Database.link_rooms`: sets `room1.exits[direction] = room2`, and when
the direction is reversible sets `room2.exits[opposite] = room1`. -/
def DB.link_rooms (db : DB) (room1_id : Int) (direction : String) (room2_id : Int) : DB :=
  let rooms1 :=
    match getKey db.rooms room1_id with
    | some r1 => setKey db.rooms room1_id { r1 with exits := setKey r1.exits direction room2_id }
    | none => db.rooms
  let rooms2 :=
    match getKey oppositeDirs direction with
    | some od =>
        match getKey rooms1 room2_id with
        | some r2 => setKey rooms1 room2_id { r2 with exits := setKey r2.exits od room1_id }
        | none => rooms1
    | none => rooms1
  { db with rooms := rooms2 }

/-! ### Engine state and combat handlers (`game_engine.py`) -/

/-- `CombatState` dataclass: one active combat session. -/
structure CombatState where
  player_id : Int
  monster_instance_id : Int
  room_id : Int
  rounds : Int
  last_action_tick : Int
  player_can_flee : Bool
deriving DecidableEq, Repr

/-- Monster instance with the template fields copied on by
`_prepare_monster_instance`. -/
structure PreparedMonster where
  id : Int
  monster_id : Int
  room_id : Int
  health : Int
  max_health : Int
  name : String
  attack : Int
  defense : Int
  experience_reward : Int
deriving DecidableEq, Repr

/-- `GameEngine._prepare_monster_instance`. -/
def prepareMonsterInstance (mi : RoomMonster) (m : Monster) : PreparedMonster :=
  { id := mi.id, monster_id := mi.monster_id, room_id := mi.room_id,
    health := mi.health, max_health := mi.max_health,
    name := m.name, attack := m.attack, defense := m.defense,
    experience_reward := m.experience_reward }

/-- Engine state relevant to one acting player: the repository, the
combat-session registry (keyed by player id) and the player. -/
structure EngineState where
  db : DB
  combat_sessions : List (Int × CombatState)
  player : Player
deriving DecidableEq, Repr

/-- `GameEngine._check_level_up`: threshold `level * 100`; on level-up
level +1, max_health +10, health fully restored, all persisted. -/
def checkLevelUp (st : EngineState) : EngineState :=
  let ch := st.player.character
  let exp_needed := ch.level * 100
  if ch.experience ≥ exp_needed then
    let ch' := { ch with
        level := ch.level + 1,
        max_health := ch.max_health + 10,
        health := ch.max_health + 10 }
    { st with
        player := { st.player with character := ch' },
        db := st.db.update_character ch.id
          { health := some ch'.health, current_room := none,
            level := some ch'.level, max_health := some ch'.max_health } }
  else
    st

/-- `GameEngine._handle_monster_death`: award `experience_reward`, run the
level-up check, and remove the monster instance from the repository. -/
def handleMonsterDeath (st : EngineState) (monster : PreparedMonster) : EngineState :=
  let ch := st.player.character
  let st1 := { st with player := { st.player with character :=
      { ch with experience := ch.experience + monster.experience_reward } } }
  let st2 := checkLevelUp st1
  { st2 with db := st2.db.remove_room_monster monster.id }

/-- `GameEngine._player_attack` with the `random.randint(1, 6)` outcome
as the `roll` parameter.  Computes `damage = max(1, strength + roll -
defense)`, persists `monster.health - damage` unclamped, and on
`new_health <= 0` runs monster death and deletes the combat session.
Also returns the monster's new health (the local dict mutation
`monster['health'] = new_health`). -/
def playerAttack (st : EngineState) (monster : PreparedMonster) (roll : Int) :
    EngineState × Int :=
  let ch := st.player.character
  let player_attack_roll := ch.strength + roll
  let damage := max 1 (player_attack_roll - monster.defense)
  let new_health := monster.health - damage
  let st1 := { st with db := st.db.update_room_monster_health monster.id new_health }
  if new_health ≤ 0 then
    let st2 := handleMonsterDeath st1 { monster with health := new_health }
    ({ st2 with combat_sessions := delKey st2.combat_sessions st.player.user_id }, new_health)
  else
    (st1, new_health)

/-- `GameEngine._handle_player_death`: delete the session, set health to
`max_health // 2`, move to room 2 (temple) and persist both fields. -/
def handlePlayerDeath (st : EngineState) : EngineState :=
  let st1 := { st with combat_sessions := delKey st.combat_sessions st.player.user_id }
  let ch := st1.player.character
  let ch' := { ch with health := Int.fdiv ch.max_health 2, current_room := 2 }
  { st1 with
      player := { st1.player with character := ch' },
      db := st1.db.update_character ch.id
        { health := some ch'.health, current_room := some 2,
          level := none, max_health := none } }

/-- `GameEngine._monster_attack` with the `random.randint(1, 4)` outcome
as the `roll` parameter: `damage = max(1, attack + roll -
constitution // 2)`; on `health <= 0` runs player death. -/
def monsterAttack (st : EngineState) (monster : PreparedMonster) (roll : Int) :
    EngineState :=
  let ch := st.player.character
  let monster_attack_roll := monster.attack + roll
  let player_defense := Int.fdiv ch.constitution 2
  let damage := max 1 (monster_attack_roll - player_defense)
  let st1 := { st with player := { st.player with character :=
      { ch with health := ch.health - damage } } }
  if st1.player.character.health ≤ 0 then
    handlePlayerDeath st1
  else
    st1

/-- Character-list version of Python's `a in b` substring test:
does the first list occur contiguously inside the second? -/
def startsWithChars : List Char → List Char → Bool
  | [], _ => true
  | _ :: _, [] => false
  | a :: as, b :: bs => a = b && startsWithChars as bs

/-- Substring occurrence on character lists. -/
def hasSubChars (needle : List Char) : List Char → Bool
  | [] => needle.isEmpty
  | b :: bs => startsWithChars needle (b :: bs) || hasSubChars needle bs

/-- Python `str.lower()`, character-wise. -/
def lowerChars (l : List Char) : List Char :=
  l.map Char.toLower

/-- Whitespace for Python `str.strip()` / `str.split()`. -/
def isSpaceChar (c : Char) : Bool :=
  c = ' ' || c = '\t' || c = '\n' || c = '\r'

/-- Python `str.strip()`: drop whitespace at both ends. -/
def trimChars (l : List Char) : List Char :=
  ((l.dropWhile isSpaceChar).reverse.dropWhile isSpaceChar).reverse

/-- Accumulator pass for Python `str.split()` (split on whitespace runs,
no empty words). -/
def splitWordsAux : List Char → List Char → List (List Char)
  | [], acc => if acc.isEmpty then [] else [acc.reverse]
  | c :: rest, acc =>
      if isSpaceChar c then
        if acc.isEmpty then splitWordsAux rest []
        else acc.reverse :: splitWordsAux rest []
      else splitWordsAux rest (c :: acc)

/-- Python `str.split()` without arguments. -/
def splitWords (l : List Char) : List (List Char) :=
  splitWordsAux l []

/-- First pass of `_find_target_monster`: first exact case-insensitive
name match. -/
def findExactTarget (db : DB) (tl : List Char) : List RoomMonster → Option PreparedMonster
  | [] => none
  | mi :: rest =>
      match db.get_monster mi.monster_id with
      | some m =>
          if lowerChars m.name.data = tl then some (prepareMonsterInstance mi m)
          else findExactTarget db tl rest
      | none => findExactTarget db tl rest

/-- Second pass of `_find_target_monster`: candidates whose lowercased
name contains the query, or contains one of the query's
whitespace-split words. -/
def partialTargets (db : DB) (tl : List Char) (l : List RoomMonster) : List PreparedMonster :=
  l.filterMap (fun mi =>
    match db.get_monster mi.monster_id with
    | some m =>
        let ml := lowerChars m.name.data
        if hasSubChars tl ml || (splitWords tl).any (fun w => hasSubChars w ml) then
          some (prepareMonsterInstance mi m)
        else none
    | none => none)

/-- `GameEngine._find_target_monster`: exact match wins; otherwise the
first partial match (also when several candidates exist). -/
def findTargetMonster (db : DB) (room_monsters : List RoomMonster) (target_name : String) :
    Option PreparedMonster :=
  let tl := trimChars (lowerChars target_name.data)
  match findExactTarget db tl room_monsters with
  | some pm => some pm
  | none => (partialTargets db tl room_monsters).head?

/-- Which side performed an attack in a resolved exchange. -/
inductive Side
  | player
  | monster
deriving DecidableEq, Repr

/-- `GameEngine._handle_attack` with the attack-roll outcome as `roll`.
Returns the new state and `some Side.player` when an attack was resolved
(`none` when refused or no target).  The safe-zone check runs first and
returns with no session created; otherwise a session is created (or its
`last_action_tick` refreshed) and `_player_attack` is invoked directly. -/
def handleAttack (st : EngineState) (target_name : String) (current_tick : Int) (roll : Int) :
    EngineState × Option Side :=
  let room_id := st.player.character.current_room
  let safe :=
    match st.db.get_room room_id with
    | some room => (getKey room.properties "safe_zone").getD false
    | none => false
  if safe then (st, none)
  else
    let room_monsters := st.db.get_room_monsters room_id
    match findTargetMonster st.db room_monsters target_name with
    | none => (st, none)
    | some target =>
        let sessions :=
          match getKey st.combat_sessions st.player.user_id with
          | none =>
              setKey st.combat_sessions st.player.user_id
                { player_id := st.player.user_id, monster_instance_id := target.id,
                  room_id := room_id, rounds := 0, last_action_tick := current_tick,
                  player_can_flee := true }
          | some c =>
              setKey st.combat_sessions st.player.user_id
                { c with last_action_tick := current_tick }
        let res := playerAttack { st with combat_sessions := sessions } target roll
        (res.1, some Side.player)

/-- `GameEngine._handle_move` with the `random.random()` outcome as the
rational `r`.  Returns the new state and whether the move proceeded.
While in combat with `player_can_flee`, the flee attempt fails exactly
when `r > 0.7`; on success the code falls through to the normal move
logic without deleting the session, and a monster instance bound to the
session follows the player (the session's `room_id` is updated). -/
def handleMove (st : EngineState) (direction : String) (r : ℚ) : EngineState × Bool :=
  let ch := st.player.character
  let current_room_id := ch.current_room
  let proceed : Bool :=
    match getKey st.combat_sessions st.player.user_id with
    | some combat =>
        if ¬ combat.player_can_flee then false
        else if r > 7/10 then false
        else true
    | none => true
  if proceed = false then (st, false)
  else
    match st.db.get_room current_room_id with
    | none => (st, false)
    | some room =>
        match getKey room.exits direction with
        | none => (st, false)
        | some new_room_id =>
            match st.db.get_room new_room_id with
            | none => (st, false)
            | some _ =>
                let following_monster :=
                  match getKey st.combat_sessions st.player.user_id with
                  | some combat =>
                      (st.db.get_room_monsters current_room_id).find?
                        (fun (mi : RoomMonster) => mi.id == combat.monster_instance_id)
                  | none => none
                let ch' := { ch with current_room := new_room_id }
                let db1 := st.db.update_character ch.id
                  { health := none, current_room := some new_room_id,
                    level := none, max_health := none }
                match following_monster with
                | some m =>
                    let db2 := db1.update_room_monster_room m.id new_room_id
                    let sessions :=
                      match getKey st.combat_sessions st.player.user_id with
                      | some c =>
                          setKey st.combat_sessions st.player.user_id
                            { c with room_id := new_room_id }
                      | none => st.combat_sessions
                    let p' := { st.player with character := ch' }
                    ({ st with db := db2, combat_sessions := sessions, player := p' }, true)
                | none =>
                    let p' := { st.player with character := ch' }
                    ({ st with db := db1, player := p' }, true)

/-- The mutation `combat.last_action_tick = current_time; combat.rounds += 1`
after an exchange; visible in the registry only while the session is
still present. -/
def bumpSession (st : EngineState) (pid : Int) (current_tick : Int) : EngineState :=
  match getKey st.combat_sessions pid with
  | some c =>
      let c' := { c with last_action_tick := current_tick, rounds := c.rounds + 1 }
      { st with combat_sessions := setKey st.combat_sessions pid c' }
  | none => st

/-- The post-exchange death checks of `_process_combat`: player death runs
`_handle_player_death` and removes the session; monster death removes the
session. -/
def afterExchange (st : EngineState) (pid : Int) (tm_health : Int) (side : Side) :
    EngineState × Option Side :=
  if st.player.character.health ≤ 0 then
    let st1 := handlePlayerDeath st
    ({ st1 with combat_sessions := delKey st1.combat_sessions pid }, some side)
  else if tm_health ≤ 0 then
    ({ st with combat_sessions := delKey st.combat_sessions pid }, some side)
  else
    (st, some side)

/-- One session's pass of `GameEngine._process_combat`: drop the session
for offline or dead players and for vanished monsters; otherwise, when
the cadence `current_tick - last_action_tick >= 3` is met and the target
monster resolves, perform the exchange — player attacks on even `rounds`,
monster attacks on odd `rounds` — then bump the session and run the death
checks.  Returns the acting side when an exchange was resolved. -/
def processCombatSession (st : EngineState) (current_tick : Int) (roll : Int) :
    EngineState × Option Side :=
  let pid := st.player.user_id
  match getKey st.combat_sessions pid with
  | none => (st, none)
  | some combat =>
      if ¬ st.player.is_online then
        ({ st with combat_sessions := delKey st.combat_sessions pid }, none)
      else if st.player.character.health ≤ 0 then
        ({ st with combat_sessions := delKey st.combat_sessions pid }, none)
      else
        let room_monsters := st.db.get_room_monsters combat.room_id
        if ¬ room_monsters.any (fun m => m.id == combat.monster_instance_id) then
          ({ st with combat_sessions := delKey st.combat_sessions pid }, none)
        else if current_tick - combat.last_action_tick ≥ 3 then
          let target_monster :=
            match room_monsters.find? (fun mi => mi.id == combat.monster_instance_id) with
            | some mi =>
                match st.db.get_monster mi.monster_id with
                | some m => some (prepareMonsterInstance mi m)
                | none => none
            | none => none
          match target_monster with
          | none => (st, none)
          | some tm =>
              if combat.rounds % 2 = 0 then
                let res := playerAttack st tm roll
                let st2 := bumpSession res.1 pid current_tick
                afterExchange st2 pid res.2 Side.player
              else
                let st1 := monsterAttack st tm roll
                let st2 := bumpSession st1 pid current_tick
                afterExchange st2 pid tm.health Side.monster
        else
          (st, none)

/-- `GameEngine._handle_rest`: heal `max_health // 4`, clamped with
`min(max_health, health + heal_amount)`, and persist. -/
def handleRest (st : EngineState) : EngineState :=
  let ch := st.player.character
  let heal_amount := Int.fdiv ch.max_health 4
  let ch' := { ch with health := min ch.max_health (ch.health + heal_amount) }
  { st with
      player := { st.player with character := ch' },
      db := st.db.update_character ch.id
        { health := some ch'.health, current_room := none,
          level := none, max_health := none } }

/-- `GameEngine._apply_item_effect`: a potion with a `health` stat heals
`min(max_health, health + heal_amount)`; the (possibly unchanged) health
is persisted. -/
def applyItemEffect (st : EngineState) (item : Item) : EngineState :=
  let ch := st.player.character
  let ch' :=
    if item.item_type = "potion" then
      match getKey item.stats "health" with
      | some heal_amount =>
          { ch with health := min ch.max_health (ch.health + heal_amount) }
      | none => ch
    else ch
  { st with
      player := { st.player with character := ch' },
      db := st.db.update_character ch.id
        { health := some ch'.health, current_room := none,
          level := none, max_health := none } }

/-! ### Concrete fixtures (used by witnesses and counterexamples) -/

/-- The Goblin template created by `_initialize_world`. -/
def goblinT : Monster :=
  { name := "Goblin", attack := 8, defense := 2, experience_reward := 15 }

/-- A live Goblin instance in room 3. -/
def goblinMI : RoomMonster :=
  { id := 5, monster_id := 1, room_id := 3, health := 30, max_health := 30 }

/-- A plain cave room with a north exit. -/
def caveRoom : Room :=
  { name := "Cave", exits := [("north", 4)], properties := [] }

/-- The room north of the cave. -/
def forestRoom : Room :=
  { name := "Forest", exits := [("south", 3)], properties := [] }

/-- A safe-zone room as created for the Temple of Healing. -/
def templeRoom : Room :=
  { name := "Temple of Healing", exits := [], properties := [("safe_zone", true), ("temple", true)] }

/-- A level-1 test character in room 3. -/
def heroChar : Character :=
  { id := 7, name := "Hero", level := 1, experience := 0, health := 20,
    max_health := 20, strength := 10, constitution := 10, current_room := 3 }

/-- The test player wrapping `heroChar`. -/
def heroPlayer : Player :=
  { user_id := 1, character := heroChar, pending_actions := [],
    action_cooldown := 0, is_online := true }

/-- Test repository: cave, forest, temple, the goblin template and one
goblin instance, and the hero's character row. -/
def testDB : DB :=
  { rooms := [(2, templeRoom), (3, caveRoom), (4, forestRoom)],
    monsters := [(1, goblinT)],
    room_monsters := [goblinMI],
    characters := [(7, heroChar)] }

/-- Baseline engine state: hero in the cave, no combat session. -/
def baseState : EngineState :=
  { db := testDB, combat_sessions := [], player := heroPlayer }

/-- A `say` action, which carries `tick_delay = 0`
(`process_command`, `game_engine.py` line 858). -/
def sayAction : Action :=
  { player_id := 1, action_type := ActionType.say, target := none, tick_delay := 0 }

/-! ### C1 — action queue admission and cooldown -/

/-- C1 counterexample: `add_action` never consults the pending queue.
Enqueueing a zero-delay `say` action leaves the cooldown at 0 with a
non-empty queue, and a second enqueue still returns `true`, contradicting
the claim that enqueueing returns false whenever the queue is non-empty. -/
theorem C1_queue_not_checked :
    (heroPlayer.add_action sayAction).1.pending_actions ≠ [] ∧
    (heroPlayer.add_action sayAction).1.action_cooldown = 0 ∧
    ((heroPlayer.add_action sayAction).1.add_action sayAction).2 = true := by
  decide

/-- C1 (amended): `add_action` succeeds iff `action_cooldown <= 0` — the
pending queue is not consulted; on success it appends the action and sets
`action_cooldown = tick_delay`; on failure the player is unchanged; and
with nonnegative tick delays (all call sites use 0–3) the cooldown never
goes negative under either `add_action` or `update_cooldown`. -/
theorem C1_add_action_spec (p : Player) (a : Action)
    (hc : 0 ≤ p.action_cooldown) (hd : 0 ≤ a.tick_delay) :
    ((p.add_action a).2 = true ↔ p.action_cooldown ≤ 0) ∧
    ((p.add_action a).2 = true →
      (p.add_action a).1.pending_actions = p.pending_actions ++ [a] ∧
      (p.add_action a).1.action_cooldown = a.tick_delay) ∧
    ((p.add_action a).2 = false → (p.add_action a).1 = p) ∧
    0 ≤ (p.add_action a).1.action_cooldown ∧
    0 ≤ p.update_cooldown.action_cooldown := by
  unfold Player.add_action Player.update_cooldown
  by_cases h : p.action_cooldown ≤ 0 <;>
    by_cases h2 : p.action_cooldown > 0 <;>
      simp [h, h2] <;> omega

/-- C1 witness: the amended statement evaluated on the test player and a
`say` action. -/
theorem C1_add_action_spec_witness :
    ((heroPlayer.add_action sayAction).2 = true ↔ heroPlayer.action_cooldown ≤ 0) ∧
    ((heroPlayer.add_action sayAction).2 = true →
      (heroPlayer.add_action sayAction).1.pending_actions
        = heroPlayer.pending_actions ++ [sayAction] ∧
      (heroPlayer.add_action sayAction).1.action_cooldown = sayAction.tick_delay) ∧
    ((heroPlayer.add_action sayAction).2 = false →
      (heroPlayer.add_action sayAction).1 = heroPlayer) ∧
    0 ≤ (heroPlayer.add_action sayAction).1.action_cooldown ∧
    0 ≤ heroPlayer.update_cooldown.action_cooldown :=
  C1_add_action_spec heroPlayer sayAction (by decide) (by decide)

/-! ### C5 — damage formulas and floors -/

/-- C5: in `_player_attack` the monster loses exactly
`max(1, strength + roll - defense)` health (roll = `randint(1,6)`), and in
`_monster_attack` a surviving player loses exactly
`max(1, attack + roll - constitution // 2)` health (roll = `randint(1,4)`);
both damage amounts are at least 1 for all stat values. -/
theorem C5_damage_floor :
    (∀ (st : EngineState) (m : PreparedMonster) (roll : Int),
        m.health - (playerAttack st m roll).2
          = max 1 (st.player.character.strength + roll - m.defense) ∧
        1 ≤ m.health - (playerAttack st m roll).2) ∧
    (∀ (st : EngineState) (m : PreparedMonster) (roll : Int),
        0 < st.player.character.health
            - max 1 (m.attack + roll - Int.fdiv st.player.character.constitution 2) →
        st.player.character.health - (monsterAttack st m roll).player.character.health
          = max 1 (m.attack + roll - Int.fdiv st.player.character.constitution 2) ∧
        1 ≤ st.player.character.health
            - (monsterAttack st m roll).player.character.health) := by
  constructor
  · intro st m roll
    have h2 : (playerAttack st m roll).2
        = m.health - max 1 (st.player.character.strength + roll - m.defense) := by
      unfold playerAttack
      dsimp only
      split <;> rfl
    have hfloor := le_max_left 1 (st.player.character.strength + roll - m.defense)
    constructor
    · rw [h2]; ring
    · rw [h2]; linarith
  · intro st m roll h
    have hfloor :=
      le_max_left 1 (m.attack + roll - Int.fdiv st.player.character.constitution 2)
    simp only [monsterAttack]
    split
    · rename_i hdead
      linarith
    · dsimp only
      constructor
      · ring
      · linarith

/-- C5 witness: the statement evaluated at the test state, the prepared
goblin, and roll 3 on each side. -/
theorem C5_damage_floor_witness :
    (goblinMI.health - (playerAttack baseState (prepareMonsterInstance goblinMI goblinT) 3).2
        = max 1 (baseState.player.character.strength + 3
            - (prepareMonsterInstance goblinMI goblinT).defense) ∧
     1 ≤ goblinMI.health
        - (playerAttack baseState (prepareMonsterInstance goblinMI goblinT) 3).2) ∧
    (baseState.player.character.health
        - (monsterAttack baseState (prepareMonsterInstance goblinMI goblinT) 3).player.character.health
        = max 1 ((prepareMonsterInstance goblinMI goblinT).attack + 3
            - Int.fdiv baseState.player.character.constitution 2) ∧
     1 ≤ baseState.player.character.health
        - (monsterAttack baseState (prepareMonsterInstance goblinMI goblinT) 3).player.character.health) :=
  ⟨(C5_damage_floor.1 baseState (prepareMonsterInstance goblinMI goblinT) 3),
   (C5_damage_floor.2 baseState (prepareMonsterInstance goblinMI goblinT) 3 (by decide))⟩

/-! ### C6 — safe zones refuse combat -/

/-- C6: when the player's room resolves and its properties hold
`safe_zone = true`, `_handle_attack` refuses the attack: the state is
returned unchanged (no `CombatSession` created, no damage dealt) and no
attack is resolved, for every target string. -/
theorem C6_safe_zone_refusal (st : EngineState) (room : Room)
    (target : String) (current_tick roll : Int)
    (hroom : st.db.get_room st.player.character.current_room = some room)
    (hsafe : getKey room.properties "safe_zone" = some true) :
    handleAttack st target current_tick roll = (st, none) := by
  unfold handleAttack
  dsimp only
  rw [hroom]
  simp [hsafe]

/-- C6 witness: a player standing in the Temple of Healing cannot attack
the goblin (the attack leaves the state untouched). -/
theorem C6_safe_zone_refusal_witness :
    handleAttack
      { baseState with player := { heroPlayer with character :=
          { heroChar with current_room := 2 } } }
      "goblin" 10 3
      = ({ baseState with player := { heroPlayer with character :=
          { heroChar with current_room := 2 } } }, none) :=
  C6_safe_zone_refusal _ templeRoom "goblin" 10 3 (by decide) (by decide)

/-! ### C10 — healing clamps at max_health -/

/-- C10: resting heals `max_health // 4` and a health potion heals its
`health` stat, both through `min(max_health, health + heal_amount)`, so
neither ever leaves health above `max_health`. -/
theorem C10_healing_clamped (st : EngineState) (item : Item) (amt : Int)
    (hp : item.item_type = "potion") (hs : getKey item.stats "health" = some amt) :
    (handleRest st).player.character.health
      = min st.player.character.max_health
          (st.player.character.health + Int.fdiv st.player.character.max_health 4) ∧
    (handleRest st).player.character.health ≤ st.player.character.max_health ∧
    (applyItemEffect st item).player.character.health
      = min st.player.character.max_health (st.player.character.health + amt) ∧
    (applyItemEffect st item).player.character.health ≤ st.player.character.max_health := by
  have h1 : (handleRest st).player.character.health
      = min st.player.character.max_health
          (st.player.character.health + Int.fdiv st.player.character.max_health 4) := by
    simp [handleRest]
  have h2 : (applyItemEffect st item).player.character.health
      = min st.player.character.max_health (st.player.character.health + amt) := by
    simp [applyItemEffect, hp, hs]
  refine ⟨h1, ?_, h2, ?_⟩
  · rw [h1]; exact min_le_left _ _
  · rw [h2]; exact min_le_left _ _

/-- The health potion created by `_initialize_world`. -/
def healthPotion : Item :=
  { name := "Health Potion", item_type := "potion", stats := [("health", 25)] }

/-- C10 witness: the clamping statement evaluated on the test state and
the health potion. -/
theorem C10_healing_clamped_witness :
    (handleRest baseState).player.character.health
      = min baseState.player.character.max_health
          (baseState.player.character.health
            + Int.fdiv baseState.player.character.max_health 4) ∧
    (handleRest baseState).player.character.health
      ≤ baseState.player.character.max_health ∧
    (applyItemEffect baseState healthPotion).player.character.health
      = min baseState.player.character.max_health
          (baseState.player.character.health + 25) ∧
    (applyItemEffect baseState healthPotion).player.character.health
      ≤ baseState.player.character.max_health :=
  C10_healing_clamped baseState healthPotion 25 (by decide) (by decide)

/-! ### C8 — player death and respawn -/

/-- C8: `_handle_player_death` removes the player's combat session, sets
health to `max_health // 2`, moves the player to the temple room (id 2),
and persists both fields to the character row. -/
theorem C8_player_death (st : EngineState) (c0 : Character)
    (hrow : getKey st.db.characters st.player.character.id = some c0) :
    getKey (handlePlayerDeath st).combat_sessions st.player.user_id = none ∧
    (handlePlayerDeath st).player.character.health
      = Int.fdiv st.player.character.max_health 2 ∧
    (handlePlayerDeath st).player.character.current_room = 2 ∧
    getKey (handlePlayerDeath st).db.characters st.player.character.id
      = some { c0 with health := Int.fdiv st.player.character.max_health 2,
                       current_room := 2 } := by
  refine ⟨?_, ?_, ?_, ?_⟩
  · simp [handlePlayerDeath, getKey_delKey_self]
  · simp [handlePlayerDeath]
  · simp [handlePlayerDeath]
  · simp only [handlePlayerDeath, DB.update_character]
    simp only [hrow]
    rw [getKey_setKey_self]
    simp [applyCharFields]

/-- C8 witness: the respawn statement evaluated on a dying hero in combat
with the goblin. -/
theorem C8_player_death_witness :
    getKey (handlePlayerDeath
      { baseState with combat_sessions :=
          [(1, { player_id := 1, monster_instance_id := 5, room_id := 3,
                 rounds := 0, last_action_tick := 0, player_can_flee := true })] }).combat_sessions 1
      = none ∧
    (handlePlayerDeath
      { baseState with combat_sessions :=
          [(1, { player_id := 1, monster_instance_id := 5, room_id := 3,
                 rounds := 0, last_action_tick := 0, player_can_flee := true })] }).player.character.health
      = Int.fdiv heroChar.max_health 2 ∧
    (handlePlayerDeath
      { baseState with combat_sessions :=
          [(1, { player_id := 1, monster_instance_id := 5, room_id := 3,
                 rounds := 0, last_action_tick := 0, player_can_flee := true })] }).player.character.current_room
      = 2 ∧
    getKey (handlePlayerDeath
      { baseState with combat_sessions :=
          [(1, { player_id := 1, monster_instance_id := 5, room_id := 3,
                 rounds := 0, last_action_tick := 0, player_can_flee := true })] }).db.characters 7
      = some { heroChar with health := Int.fdiv heroChar.max_health 2, current_room := 2 } :=
  C8_player_death
    { baseState with combat_sessions :=
        [(1, { player_id := 1, monster_instance_id := 5, room_id := 3,
               rounds := 0, last_action_tick := 0, player_can_flee := true })] }
    heroChar (by decide)

/-! ### C9 — bidirectional room linking -/

/-- C9: for existing rooms `A` and `B` and any reversible direction,
`link_rooms A d B` establishes the reverse exit: the stored room `B`
afterwards has `exits[opposite d] = A`. -/
theorem C9_link_rooms (db : DB) (A B : Int) (d od : String) (rA rB : Room)
    (hop : getKey oppositeDirs d = some od)
    (hA : getKey db.rooms A = some rA)
    (hB : getKey db.rooms B = some rB) :
    ∃ r', (db.link_rooms A d B).get_room B = some r' ∧ getKey r'.exits od = some A := by
  unfold DB.link_rooms DB.get_room
  simp only [hA, hop]
  by_cases hab : A = B
  · subst hab
    simp only [getKey_setKey_self]
    exact ⟨_, rfl, getKey_setKey_self _ _ _⟩
  · rw [getKey_setKey_ne _ _ _ _ hab, hB]
    simp only [getKey_setKey_self]
    exact ⟨_, rfl, getKey_setKey_self _ _ _⟩

/-- C9 witness: linking the cave north to the forest makes the forest's
south exit lead back to the cave. -/
theorem C9_link_rooms_witness :
    ∃ r', (testDB.link_rooms 3 "north" 4).get_room 4 = some r' ∧
      getKey r'.exits "south" = some 3 :=
  C9_link_rooms testDB 3 4 "north" "south" caveRoom forestRoom
    (by decide) (by decide) (by decide)

/-! ### C7 — monster death rewards and level-up -/

/-- `update_character` only touches the `characters` table. -/
theorem update_character_room_monsters (db : DB) (cid : Int) (f : CharFields) :
    (db.update_character cid f).room_monsters = db.room_monsters := by
  unfold DB.update_character
  split <;> rfl

/-- C7: `_handle_monster_death` raises the player's experience by exactly
`experience_reward` and removes the monster instance from the repository;
when the new experience reaches `level * 100` the level rises by exactly
1, `max_health` by 10, and health is set to the new `max_health`;
otherwise level, max_health and health are untouched. -/
theorem C7_monster_death_rewards (st : EngineState) (m : PreparedMonster) :
    (handleMonsterDeath st m).player.character.experience
      = st.player.character.experience + m.experience_reward ∧
    (∀ mi ∈ (handleMonsterDeath st m).db.room_monsters, mi.id ≠ m.id) ∧
    (st.player.character.experience + m.experience_reward
        ≥ st.player.character.level * 100 →
      (handleMonsterDeath st m).player.character.level
        = st.player.character.level + 1 ∧
      (handleMonsterDeath st m).player.character.max_health
        = st.player.character.max_health + 10 ∧
      (handleMonsterDeath st m).player.character.health
        = st.player.character.max_health + 10) ∧
    (st.player.character.experience + m.experience_reward
        < st.player.character.level * 100 →
      (handleMonsterDeath st m).player.character.level = st.player.character.level ∧
      (handleMonsterDeath st m).player.character.max_health
        = st.player.character.max_health ∧
      (handleMonsterDeath st m).player.character.health
        = st.player.character.health) := by
  unfold handleMonsterDeath checkLevelUp
  dsimp only
  split
  · rename_i hlev
    refine ⟨rfl, ?_, fun _ => ⟨rfl, rfl, rfl⟩, fun hlt => absurd hlev (by omega)⟩
    intro mi hmi
    simp only [DB.remove_room_monster, update_character_room_monsters,
      List.mem_filter, decide_eq_true_eq] at hmi
    exact hmi.2
  · rename_i hlev
    refine ⟨rfl, ?_, fun hge => absurd hge hlev, fun _ => ⟨rfl, rfl, rfl⟩⟩
    intro mi hmi
    simp only [DB.remove_room_monster, List.mem_filter, decide_eq_true_eq] at hmi
    exact hmi.2

/-- A hero about to level up: 90 experience at level 1. -/
def almostLevel2State : EngineState :=
  { baseState with player := { heroPlayer with character :=
      { heroChar with experience := 90 } } }

/-- C7 witness: killing the goblin (reward 15) at 90 experience yields
105 experience, level 2, max_health 30, health 30, and no goblin row. -/
theorem C7_monster_death_rewards_witness :
    (handleMonsterDeath almostLevel2State (prepareMonsterInstance goblinMI goblinT)).player.character.experience
      = 105 ∧
    (handleMonsterDeath almostLevel2State (prepareMonsterInstance goblinMI goblinT)).player.character.level
      = 2 ∧
    (handleMonsterDeath almostLevel2State (prepareMonsterInstance goblinMI goblinT)).player.character.max_health
      = 30 ∧
    (handleMonsterDeath almostLevel2State (prepareMonsterInstance goblinMI goblinT)).player.character.health
      = 30 ∧
    (∀ mi ∈ (handleMonsterDeath almostLevel2State (prepareMonsterInstance goblinMI goblinT)).db.room_monsters,
      mi.id ≠ (prepareMonsterInstance goblinMI goblinT).id) := by
  have h := C7_monster_death_rewards almostLevel2State (prepareMonsterInstance goblinMI goblinT)
  have hup := h.2.2.1 (by decide)
  exact ⟨by rw [h.1]; decide, by rw [hup.1]; decide, by rw [hup.2.1]; decide,
    by rw [hup.2.2]; decide, h.2.1⟩

/-! ### C3 — persisted monster health is not clamped -/

/-- `_handle_monster_death` leaves exactly the other instance rows. -/
theorem handleMonsterDeath_room_monsters (st : EngineState) (mm : PreparedMonster) :
    (handleMonsterDeath st mm).db.room_monsters
      = st.db.room_monsters.filter (fun mi => ¬ mi.id = mm.id) := by
  unfold handleMonsterDeath checkLevelUp DB.remove_room_monster
  dsimp only
  split
  · rw [update_character_room_monsters]
  · rfl

/-- A goblin instance at 1 health. -/
def weakGoblinMI : RoomMonster :=
  { id := 5, monster_id := 1, room_id := 3, health := 1, max_health := 30 }

/-- C3 counterexample: attacking the 1-health goblin with strength 10 and
roll 1 deals 9 damage, and the health value written back to the
repository is `-8` — negative, not clamped at 0; the repository stores it
verbatim. -/
theorem C3_unclamped_write :
    (playerAttack baseState (prepareMonsterInstance weakGoblinMI goblinT) 1).2 = -8 ∧
    (playerAttack baseState (prepareMonsterInstance weakGoblinMI goblinT) 1).2 < 0 ∧
    (testDB.update_room_monster_health 5 (-8)).room_monsters.map
      (fun mi => mi.health) = [-8] := by
  decide

/-- C3 (amended): the health value written back is the raw
`health - damage` and may be negative; death (`new_health <= 0`)
immediately removes the instance row, so once `_player_attack` completes,
any surviving row for the target carries the written (positive) health
and no row for the target remains after a killing blow. -/
theorem C3_death_removes_row (st : EngineState) (m : PreparedMonster) (roll : Int) :
    (playerAttack st m roll).2
      = m.health - max 1 (st.player.character.strength + roll - m.defense) ∧
    ((playerAttack st m roll).2 ≤ 0 →
      ∀ mi ∈ (playerAttack st m roll).1.db.room_monsters, mi.id ≠ m.id) ∧
    (0 < (playerAttack st m roll).2 →
      ∀ mi ∈ (playerAttack st m roll).1.db.room_monsters,
        mi.id = m.id → mi.health = (playerAttack st m roll).2) := by
  have h2 : (playerAttack st m roll).2
      = m.health - max 1 (st.player.character.strength + roll - m.defense) := by
    unfold playerAttack
    dsimp only
    split <;> rfl
  have hsplit :
      (m.health - max 1 (st.player.character.strength + roll - m.defense) ≤ 0 ∧
        (playerAttack st m roll).1.db.room_monsters
          = (st.db.update_room_monster_health m.id
              (m.health - max 1 (st.player.character.strength + roll
                - m.defense))).room_monsters.filter (fun mi => ¬ mi.id = m.id)) ∨
      (0 < m.health - max 1 (st.player.character.strength + roll - m.defense) ∧
        (playerAttack st m roll).1.db.room_monsters
          = (st.db.update_room_monster_health m.id
              (m.health - max 1 (st.player.character.strength + roll
                - m.defense))).room_monsters) := by
    unfold playerAttack
    dsimp only
    split
    · rename_i hc
      exact Or.inl ⟨hc, by rw [handleMonsterDeath_room_monsters]⟩
    · rename_i hc
      exact Or.inr ⟨by omega, rfl⟩
  refine ⟨h2, ?_, ?_⟩
  · intro hdead mi hmi
    rw [h2] at hdead
    rcases hsplit with ⟨_, heq⟩ | ⟨hc, _⟩
    · rw [heq] at hmi
      simp only [List.mem_filter, decide_eq_true_eq] at hmi
      exact hmi.2
    · omega
  · intro hpos mi hmi hid
    rw [h2] at hpos
    rw [h2]
    rcases hsplit with ⟨hc, _⟩ | ⟨_, heq⟩
    · omega
    · rw [heq] at hmi
      simp only [DB.update_room_monster_health, List.mem_map] at hmi
      obtain ⟨x, hx, rfl⟩ := hmi
      by_cases hxid : x.id = m.id
      · simp [hxid]
      · simp only [hxid, if_false] at hid ⊢

/-- C3 witness: a surviving goblin (30 health, 9 damage) keeps exactly
the written health, 21. -/
theorem C3_death_removes_row_witness :
    ({ id := 5, monster_id := 1, room_id := 3, health := 21, max_health := 30 } :
        RoomMonster).health
      = (playerAttack baseState (prepareMonsterInstance goblinMI goblinT) 1).2 :=
  (C3_death_removes_row baseState (prepareMonsterInstance goblinMI goblinT) 1).2.2
    (by decide)
    { id := 5, monster_id := 1, room_id := 3, health := 21, max_health := 30 }
    (by decide) (by decide)

/-! ### C2 — fleeing by moving while in combat -/

/-- An active can-flee combat session of the hero against the goblin. -/
def fleeSession : CombatState :=
  { player_id := 1, monster_instance_id := 5, room_id := 3, rounds := 2,
    last_action_tick := 0, player_can_flee := true }

/-- Baseline state with the hero in combat and able to flee. -/
def fleeState : EngineState :=
  { baseState with combat_sessions := [(1, fleeSession)] }

/-- C2 counterexample: with flee roll 7/10 (a successful escape, since
`random.random() > 0.7` fails), the move proceeds — yet the
`CombatSession` is NOT removed from the registry: it persists with its
`room_id` updated to the destination, because `_handle_move` never
deletes the session and the goblin follows. -/
theorem C2_flee_session_persists :
    (handleMove fleeState "north" (7/10)).2 = true ∧
    getKey (handleMove fleeState "north" (7/10)).1.combat_sessions 1
      = some { fleeSession with room_id := 4 } := by
  have hr : ¬ ((7:ℚ)/10 > 7/10) := lt_irrefl _
  constructor <;>
    simp [handleMove, hr, fleeState, baseState, fleeSession, heroPlayer, heroChar,
      testDB, DB.get_room, DB.get_room_monsters, DB.update_character,
      DB.update_room_monster_room, applyCharFields, getKey, setKey,
      caveRoom, forestRoom, templeRoom, goblinMI]

/-- C2 (amended): while in combat with `player_can_flee`, a Move fails
and leaves everything unchanged exactly when the roll exceeds 0.7 (so
escape succeeds for rolls in the 70% of the unit interval at or below
0.7); on success the move proceeds, but the session persists: it stays
registered unchanged when the bound monster instance is absent from the
old room, and stays registered with `room_id` updated to the destination
(the monster follows) when the instance is present. -/
theorem C2_flee_move_spec (st : EngineState) (combat : CombatState)
    (direction : String) (r : ℚ)
    (hs : getKey st.combat_sessions st.player.user_id = some combat)
    (hf : combat.player_can_flee = true) :
    (r > 7/10 → handleMove st direction r = (st, false)) ∧
    (r ≤ 7/10 →
      ∀ room nrid nroom,
        st.db.get_room st.player.character.current_room = some room →
        getKey room.exits direction = some nrid →
        st.db.get_room nrid = some nroom →
        (handleMove st direction r).2 = true ∧
        (handleMove st direction r).1.player.character.current_room = nrid ∧
        (∀ mon, (st.db.get_room_monsters st.player.character.current_room).find?
            (fun mi => mi.id == combat.monster_instance_id) = some mon →
          getKey (handleMove st direction r).1.combat_sessions st.player.user_id
            = some { combat with room_id := nrid }) ∧
        ((st.db.get_room_monsters st.player.character.current_room).find?
            (fun mi => mi.id == combat.monster_instance_id) = none →
          getKey (handleMove st direction r).1.combat_sessions st.player.user_id
            = some combat)) := by
  constructor
  · intro hr
    simp [handleMove, hs, hf, hr]
  · intro hr room nrid nroom hroom hexit hnroom
    have hnr : ¬ (r > 7/10) := not_lt.mpr hr
    cases hfm : (st.db.get_room_monsters st.player.character.current_room).find?
        (fun mi => mi.id == combat.monster_instance_id) with
    | none =>
        refine ⟨?_, ?_, ?_, ?_⟩ <;>
          simp [handleMove, hs, hf, hnr, hroom, hexit, hnroom, hfm]
    | some mon =>
        refine ⟨?_, ?_, ?_, ?_⟩ <;>
          simp [handleMove, hs, hf, hnr, hroom, hexit, hnroom, hfm,
            getKey_setKey_self]

/-- C2 witness: the amended statement evaluated at the flee state with
roll 7/10 moving north. -/
theorem C2_flee_move_spec_witness :
    (handleMove fleeState "north" (7/10)).2 = true ∧
    (handleMove fleeState "north" (7/10)).1.player.character.current_room = 4 ∧
    getKey (handleMove fleeState "north" (7/10)).1.combat_sessions 1
      = some { fleeSession with room_id := 4 } := by
  have h := (C2_flee_move_spec fleeState fleeSession "north" (7/10)
      (by decide) (by decide)).2 (le_refl _) caveRoom 4 forestRoom
      (by decide) (by decide) (by decide)
  exact ⟨h.1, h.2.1, h.2.2.1 goblinMI (by decide)⟩

/-! ### C4 — attacker alternation by round parity -/

/-- `afterExchange` reports exactly the side it was given. -/
theorem afterExchange_snd (st : EngineState) (pid tm_health : Int) (side : Side) :
    (afterExchange st pid tm_health side).2 = some side := by
  unfold afterExchange
  split
  · rfl
  · split <;> rfl

/-- `_handle_monster_death` never touches the session registry. -/
theorem handleMonsterDeath_sessions (st : EngineState) (mm : PreparedMonster) :
    (handleMonsterDeath st mm).combat_sessions = st.combat_sessions := by
  unfold handleMonsterDeath checkLevelUp
  dsimp only
  split <;> rfl

/-- `_player_attack` leaves the session registry unchanged, except that a
killing blow deletes the attacker's own session. -/
theorem playerAttack_sessions (st : EngineState) (m : PreparedMonster) (roll : Int) :
    (playerAttack st m roll).1.combat_sessions = st.combat_sessions ∨
    (playerAttack st m roll).1.combat_sessions
      = delKey st.combat_sessions st.player.user_id := by
  unfold playerAttack
  dsimp only
  split
  · right
    rw [handleMonsterDeath_sessions]
  · left
    rfl

/-- The hero's combat session against the goblin on an odd round. -/
def oddRoundSession : CombatState :=
  { player_id := 1, monster_instance_id := 5, room_id := 3, rounds := 1,
    last_action_tick := 0, player_can_flee := true }

/-- Baseline state with the odd-round session registered. -/
def oddRoundState : EngineState :=
  { baseState with combat_sessions := [(1, oddRoundSession)] }

/-- C4 counterexample: with the session's `rounds` odd (1), a manual
Attack action still resolves as a player attack — `_handle_attack` calls
`_player_attack` unconditionally and never consults `rounds` — so parity
does not determine the attacker in every resolved exchange. -/
theorem C4_manual_attack_ignores_parity :
    getKey oddRoundState.combat_sessions 1 = some oddRoundSession ∧
    oddRoundSession.rounds % 2 = 1 ∧
    (handleAttack oddRoundState "goblin" 10 3).2 = some Side.player := by
  decide

/-- C4 (amended): round parity determines the attacker only for the
periodic exchanges of `_process_combat` — there, an exchange is a player
attack iff the session's `rounds` is even — while a manual Attack action
always resolves as a player attack, whatever the parity, and does not
advance `rounds`: when the attacker's session survives the manual attack,
its `rounds` counter is unchanged. -/
theorem C4_parity_spec :
    (∀ (st : EngineState) (current_tick roll : Int) (st' : EngineState)
        (side : Side) (c : CombatState),
        getKey st.combat_sessions st.player.user_id = some c →
        processCombatSession st current_tick roll = (st', some side) →
        (side = Side.player ↔ c.rounds % 2 = 0)) ∧
    (∀ (st : EngineState) (target : String) (current_tick roll : Int)
        (st' : EngineState) (side : Side),
        handleAttack st target current_tick roll = (st', some side) →
        side = Side.player) ∧
    (∀ (st : EngineState) (target : String) (current_tick roll : Int)
        (st' : EngineState) (side : Side) (c c' : CombatState),
        getKey st.combat_sessions st.player.user_id = some c →
        handleAttack st target current_tick roll = (st', some side) →
        getKey st'.combat_sessions st.player.user_id = some c' →
        c'.rounds = c.rounds) := by
  refine ⟨?_, ?_, ?_⟩
  · intro st t roll st' side c hc h
    unfold processCombatSession at h
    dsimp only at h
    simp only [hc] at h
    split at h
    · simp at h
    · split at h
      · simp at h
      · split at h
        · simp at h
        · split at h
          · split at h
            · simp at h
            · split at h
              · rename_i heven
                have hside := congrArg Prod.snd h
                rw [afterExchange_snd] at hside
                simp only [Option.some.injEq] at hside
                simp [← hside, heven]
              · rename_i hodd
                have hside := congrArg Prod.snd h
                rw [afterExchange_snd] at hside
                simp only [Option.some.injEq] at hside
                constructor
                · intro hp
                  rw [← hside] at hp
                  exact absurd hp (by simp)
                · intro he
                  exact absurd he hodd
          · simp at h
  · intro st target t roll st' side h
    unfold handleAttack at h
    dsimp only at h
    split at h
    · simp at h
    · split at h
      · simp at h
      · have hside := congrArg Prod.snd h
        simp only [Option.some.injEq] at hside
        exact hside.symm
  · intro st target t roll st' side c c' hc h hc'
    unfold handleAttack at h
    dsimp only at h
    split at h
    · simp at h
    · split at h
      · simp at h
      · rename_i pm hfind
        simp only [hc] at h
        have hfst := congrArg Prod.fst h
        dsimp only at hfst
        rw [← hfst] at hc'
        rcases playerAttack_sessions
            { st with
                combat_sessions := setKey st.combat_sessions st.player.user_id
                  { c with last_action_tick := t } } pm roll with heq | heq
        · rw [heq] at hc'
          dsimp only at hc'
          rw [getKey_setKey_self] at hc'
          simp only [Option.some.injEq] at hc'
          rw [← hc']
        · rw [heq] at hc'
          dsimp only at hc'
          rw [getKey_delKey_self] at hc'
          exact absurd hc' (by simp)

/-- The hero's combat session against the goblin on an even round. -/
def evenRoundSession : CombatState :=
  { player_id := 1, monster_instance_id := 5, room_id := 3, rounds := 2,
    last_action_tick := 0, player_can_flee := true }

/-- Baseline state with the even-round session registered. -/
def evenRoundState : EngineState :=
  { baseState with combat_sessions := [(1, evenRoundSession)] }

/-- C4 witness: a resolver pass on an even-round (2) session with the
cadence met resolves a player attack, matching the parity rule; and a
manual attack on the odd-round session leaves its `rounds` counter
unchanged. -/
theorem C4_parity_spec_witness :
    processCombatSession evenRoundState 10 3
      = ((processCombatSession evenRoundState 10 3).1, some Side.player) ∧
    (Side.player = Side.player ↔ evenRoundSession.rounds % 2 = 0) ∧
    ({ oddRoundSession with last_action_tick := 10 } : CombatState).rounds
      = oddRoundSession.rounds :=
  ⟨by decide,
   C4_parity_spec.1 evenRoundState 10 3
     (processCombatSession evenRoundState 10 3).1 Side.player evenRoundSession
     (by decide) (by decide),
   C4_parity_spec.2.2 oddRoundState "goblin" 10 3
     (handleAttack oddRoundState "goblin" 10 3).1 Side.player
     oddRoundSession { oddRoundSession with last_action_tick := 10 }
     (by decide) (by decide) (by decide)⟩

end SSHRPG
